import Mathlib

/-!
Verification of the commit-range resolution and diff classification pipeline
of the `changes` action (sources: `src/main.rs`, `src/utils.rs`, `src/args.rs`).

The development shallowly embeds the Rust code over explicit "port" structures
standing for the external collaborators (the git2 repository handle and the
spawned git commands).  Pure logic — glob filtering, delta classification,
the control flow of the two range resolvers and of the diff engine — is
translated directly from the source.
-/

/-! ## Glob pattern model

The Rust code delegates pattern matching to the external `glob` crate
(`glob::Pattern`, `glob::MatchOptions`).  We model the crate's matching
semantics for the pattern fragment containing literal characters, `?`
(any single character) and `*` (any possibly empty character sequence).
With the crate's default `MatchOptions` (`case_sensitive = true`,
`require_literal_separator = false`) a `*` may match across `/`, which the
model reproduces.  Character classes and the component-restricted `**`
wildcard are not modelled; no theorem below exercises them.
-/

/-- ASCII lower-casing, as used by the glob crate's case-insensitive mode. -/
def asciiLower (c : Char) : Char :=
  if 65 ≤ c.toNat ∧ c.toNat ≤ 90 then Char.ofNat (c.toNat + 32) else c

/-- Character comparison used by the matcher: exact when case-sensitive,
up to ASCII case otherwise. -/
def matchChars (caseSensitive : Bool) (a b : Char) : Bool :=
  if caseSensitive then a = b else asciiLower a = asciiLower b

/-- Core glob matcher over character lists, structurally recursive on a
fuel bound so that it evaluates in the kernel.  Every recursive call
decreases `pat.length + s.length`, so any fuel exceeding that sum gives
the fuel-free semantics (see `globMatch`). -/
def globMatchFuel (cs : Bool) : Nat → List Char → List Char → Bool
  | 0, _, _ => false
  | fuel + 1, pat, str =>
    match pat, str with
    | [], [] => true
    | [], _ :: _ => false
    | p :: ps, [] => if p = '*' then globMatchFuel cs fuel ps [] else false
    | p :: ps, c :: s =>
      if p = '*' then
        globMatchFuel cs fuel ps (c :: s) || globMatchFuel cs fuel (p :: ps) s
      else if p = '?' then globMatchFuel cs fuel ps s
      else matchChars cs p c && globMatchFuel cs fuel ps s

/-- Glob matcher (model of the glob crate's `Pattern::matches_with` for the
literal / `?` / `*` fragment): literal characters match via `matchChars`,
`?` consumes one character, `*` consumes any sequence. -/
def globMatch (cs : Bool) (pat s : List Char) : Bool :=
  globMatchFuel cs (pat.length + s.length + 1) pat s

/-- Model of `glob::MatchOptions`; only the field the sources set is kept. -/
structure MatchOptions where
  caseSensitive : Bool

/-- Model of `MatchOptions::new()`: the crate's default is case-sensitive. -/
def matchOptionsNew : MatchOptions := { caseSensitive := true }

/-- Options built in `get_glob_patterns` (utils.rs:755-759):
`case_sensitive` set to `false`. -/
def ciMatchOptions : MatchOptions := { caseSensitive := false }

/-- Model of `Pattern::matches_with`; a compiled pattern is identified with
its source text (`Pattern::as_str` returns the original string). -/
def matchesWith (pat s : String) (o : MatchOptions) : Bool :=
  globMatch o.caseSensitive pat.toList s.toList

/-- Model of `Pattern::matches` (used in `get_diff`, utils.rs:595): the
crate defines it as `matches_with` at the default options. -/
def patternMatches (pat path : String) : Bool :=
  matchesWith pat path matchOptionsNew

/-- Case-insensitive pattern-vs-text matching as invoked at filter
construction (utils.rs:761). -/
def patternMatchesCaseInsensitive (pat text : String) : Bool :=
  matchesWith pat text ciMatchOptions

/-! ## Glob filter construction (`get_glob_patterns`, utils.rs:680-763)

The "from-source-file" inputs are read from the filesystem in the source
(`fs::read_to_string`, an external port); the embedding receives the file
contents that were read as explicit string lists.  Pattern compilation
failures (`Pattern::new` errors) can only arise from character classes and
`**`, which are outside the modelled fragment, so every split element is
kept as a pattern, matching the source's behavior on the modelled fragment.
-/

/-- Prefix test on character lists, used by the splitter. -/
def leadsWith : List Char → List Char → Bool
  | [], _ => true
  | _ :: _, [] => false
  | a :: as, b :: bs => a = b && leadsWith as bs

/-- Left-to-right splitter on a non-overlapping separator occurrence,
structurally recursive on a fuel bound (each step consumes at least one
character, so `s.length + 1` fuel suffices).  Models Rust's
`str::split` for a non-empty separator. -/
def splitSepFuel (sep : List Char) : Nat → List Char → List Char → List (List Char)
  | 0, acc, _ => [acc.reverse]
  | _ + 1, acc, [] => [acc.reverse]
  | fuel + 1, acc, c :: rest =>
      if sep ≠ [] ∧ leadsWith sep (c :: rest) then
        acc.reverse :: splitSepFuel sep fuel [] ((c :: rest).drop sep.length)
      else
        splitSepFuel sep fuel (c :: acc) rest

/-- String splitting as Rust's `str::split` performs it for the non-empty
separators the action uses (the separator inputs default to a newline).
The empty-separator edge case is not modelled. -/
def rustSplit (s sep : String) : List String :=
  (splitSepFuel sep.toList (s.toList.length + 1) [] s.toList).map
    (fun cs => String.mk cs)

/-- Splitting of a possibly-empty input blob, mirroring the
`if !input.is_empty() { for part in input.split(sep) ... }` shape of the
source: an empty blob contributes no patterns. -/
def splitNonEmpty (s sep : String) : List String :=
  if s = "" then [] else rustSplit s sep

/-- Include-pattern list assembled by `get_glob_patterns` before the ignore
filter (utils.rs:693-721): the inline `files` blob split on its separator,
then each from-source-file content split on newlines. -/
def includePatternList (files files_separator : String)
    (files_from_source_contents : List String) : List String :=
  splitNonEmpty files files_separator ++
    (files_from_source_contents.map (fun c => rustSplit c "\n")).flatten

/-- Ignore-pattern list assembled by `get_glob_patterns`
(utils.rs:723-753). -/
def ignorePatternList (files_ignore files_ignore_separator : String)
    (files_ignore_from_source_contents : List String) : List String :=
  splitNonEmpty files_ignore files_ignore_separator ++
    (files_ignore_from_source_contents.map (fun c => rustSplit c "\n")).flatten

/-- Embedding of `get_glob_patterns` (utils.rs:680-763).  The returned
compiled filter is the include list with every pattern dropped whose literal
text is matched, case-insensitively, by some ignore pattern
(utils.rs:761); the ignore patterns themselves are not part of the result. -/
def get_glob_patterns (files files_separator : String)
    (files_from_source_contents : List String)
    (files_ignore files_ignore_separator : String)
    (files_ignore_from_source_contents : List String) : List String :=
  let glob_patterns :=
    splitNonEmpty files files_separator ++
      (files_from_source_contents.map (fun c => rustSplit c "\n")).flatten
  let glob_ignore_patterns :=
    splitNonEmpty files_ignore files_ignore_separator ++
      (files_ignore_from_source_contents.map (fun c => rustSplit c "\n")).flatten
  glob_patterns.filter (fun glob_pattern =>
    !(glob_ignore_patterns.any (fun ignore_glob_pattern =>
      matchesWith ignore_glob_pattern glob_pattern ciMatchOptions)))

/-- The per-path keep test applied by `get_diff` (utils.rs:595): a path
passes when the compiled filter is empty or some pattern matches it with
the default (case-sensitive) options. -/
def keepPathByGlobs (glob_patterns : List String) (path : String) : Bool :=
  glob_patterns.isEmpty ||
    glob_patterns.any (fun pattern => patternMatches pattern path)

/-- The composition law as the specification words it (§3, §8): a path is
kept iff (the include set is empty or the path matches some include
pattern) and the path matches no exclude pattern. -/
def specKeepPath (includes excludes : List String) (path : String) : Bool :=
  (includes.isEmpty || includes.any (fun i => patternMatches i path)) &&
    !(excludes.any (fun e => patternMatches e path))

example : patternMatches "*.rs" "src/main.rs" = true := by decide
example : patternMatches "src/*" "src/main.rs" = true := by decide
example : patternMatchesCaseInsensitive "src/*" "*.rs" = false := by decide
example : patternMatches "*.RS" "src/main.rs" = false := by decide
example : patternMatchesCaseInsensitive "*.rs" "*.RS" = true := by decide
example :
    get_glob_patterns "*.rs" "\n" [] "src/*" "\n" [] = ["*.rs"] := by decide
example :
    get_glob_patterns "*.RS" "\n" [] "*.rs" "\n" [] = [] := by decide

/-! ## Delta statuses and their two classifications

`git2::Delta` is the provider-level raw status enum.  `DiffType`
(utils.rs:527-537) is the action's own change kind.  The source contains
two distinct mappings between them: `impl From<Delta> for DiffType`
(utils.rs:539-554) and the inline match inside `get_diff` /
`get_submodule_diff` (utils.rs:578-590, 651-663).
-/

/-- Raw provider-level delta status (`git2::Delta`). -/
inductive Delta where
  | Added
  | Copied
  | Deleted
  | Modified
  | Renamed
  | Typechange
  | Unmodified
  | Untracked
  | Ignored
  | Unreadable
  | Conflicted
deriving DecidableEq, Repr

/-- The action's change kind (`DiffType`, utils.rs:527-537). -/
inductive DiffType where
  | Added
  | Copied
  | Modified
  | Deleted
  | Renamed
  | TypeChanged
  | Unmerged
  | Unknown
deriving DecidableEq, Repr

/-- The inline raw-status classification used by both `get_diff`
(utils.rs:578-590) and `get_submodule_diff` (utils.rs:651-663): the two
call sites repeat the identical match, embedded here once.  Untracked,
Ignored, Unreadable and Unmodified all map to `Unknown`. -/
def classifyDelta : Delta → DiffType
  | .Added => .Added
  | .Copied => .Copied
  | .Deleted => .Deleted
  | .Modified => .Modified
  | .Renamed => .Renamed
  | .Typechange => .TypeChanged
  | .Unmodified => .Unknown
  | .Unreadable => .Unknown
  | .Untracked => .Unknown
  | .Ignored => .Unknown
  | .Conflicted => .Unmerged

/-- Embedding of `impl From<Delta> for DiffType` (utils.rs:539-554).  The
source match has no arm for `Delta::Unmodified`, which the embedding
renders as `none`; Untracked, Ignored and Unreadable map to `Added`. -/
def diffTypeFromDelta : Delta → Option DiffType
  | .Added => some .Added
  | .Copied => some .Copied
  | .Deleted => some .Deleted
  | .Modified => some .Modified
  | .Renamed => some .Renamed
  | .Typechange => some .TypeChanged
  | .Untracked => some .Added
  | .Ignored => some .Added
  | .Unreadable => some .Added
  | .Conflicted => some .Unmerged
  | .Unmodified => none

/-! ## DiffEngine (`get_diff` / `get_submodule_diff`, utils.rs:556-678)

The git2 repository handle is modelled as a port structure.  Commits are
identified by their SHA strings; tree-to-tree diffing (always invoked with
`ignore_submodules(true)`), merge-base computation, the submodule list and
gitlink lookup are port operations.  Fallible source operations whose
failure panics (an `unwrap` on a port result) are rendered as `none` of
the surrounding `Option`.
-/

/-- A single raw delta record: its status and its new-file path (the
source reads `delta.status()` and `delta.new_file().path()`). -/
structure DeltaRec where
  status : Delta
  newFilePath : String
deriving DecidableEq, Repr

/-- One classified output entry (the source's `DiffFile` with fields
`path` and `diff_type`). -/
structure DiffFile where
  path : String
  diff_type : DiffType
deriving DecidableEq, Repr

/-- Port over the git2 repository operations that `get_diff` and
`get_submodule_diff` invoke: `merge_base`, `diff_tree_to_tree` on the
trees of two commits (with submodule-internal content excluded, matching
`ignore_submodules(true)`), the submodule path list, the gitlink entry of
a submodule path in a commit's tree (`tree().get_path(..).id()`), and
commit lookup success (`find_commit(..).is_ok()`). -/
structure Repository where
  mergeBase : String → String → Option String
  diffTreeToTree : String → String → List DeltaRec
  submodulePaths : List String
  gitlinkAt : String → String → Option String
  findCommitExists : String → Bool

/-- The per-delta keep-and-classify step shared by `get_diff` and
`get_submodule_diff` (utils.rs:577-602, 650-675): classify the raw
status, keep the delta when its kind is requested and its new-file path
passes the glob filter. -/
def keepDelta (diff_types : List DiffType) (glob_patterns : List String)
    (delta : DeltaRec) : Option DiffFile :=
  let delta_type := classifyDelta delta.status
  if diff_types.contains delta_type then
    if keepPathByGlobs glob_patterns delta.newFilePath then
      some { path := delta.newFilePath, diff_type := delta_type }
    else none
  else none

/-- Embedding of `get_submodule_diff` (utils.rs:623-678): the submodule's
previous and current commits are the gitlink ids recorded in the parent's
trees at the previous and current commits, the ancestor is chosen with
the same diff operator string as the parent, and the resulting deltas are
classified and filtered exactly as at the top level.  `none` models a
panic (missing gitlink entry, unknown gitlink commit, unresolvable
merge-base under `...`, or an invalid operator string). -/
def get_submodule_diff (repo : Repository) (submodule_path : String)
    (parent_previous_commit parent_current_commit : String)
    (diff_types : List DiffType) (diff : String)
    (glob_patterns : List String) : Option (List DiffFile) := do
  let submodule_previous_commit ← repo.gitlinkAt parent_previous_commit submodule_path
  let submodule_current_commit ← repo.gitlinkAt parent_current_commit submodule_path
  if !(repo.findCommitExists submodule_previous_commit) then none
  else if !(repo.findCommitExists submodule_current_commit) then none
  else do
    let submodule_ancestor_commit ←
      match diff with
      | ".." => some submodule_previous_commit
      | "..." => repo.mergeBase submodule_previous_commit submodule_current_commit
      | _ => none
    let deltas := repo.diffTreeToTree submodule_ancestor_commit submodule_current_commit
    some (deltas.filterMap (keepDelta diff_types glob_patterns))

/-- Embedding of `get_diff` (utils.rs:556-621): choose the ancestor per
the operator string (`..` takes the previous commit, `...` the
merge-base), diff the ancestor tree against the current tree with
submodule content excluded, classify and filter each delta, then walk
every submodule through `get_submodule_diff` and append each non-empty
submodule result. -/
def get_diff (repo : Repository) (previous_commit current_commit : String)
    (diff_types : List DiffType) (diff : String)
    (glob_patterns : List String) : Option (List DiffFile) := do
  let ancestor_commit ←
    match diff with
    | ".." => some previous_commit
    | "..." => repo.mergeBase previous_commit current_commit
    | _ => none
  let deltas := repo.diffTreeToTree ancestor_commit current_commit
  let file_diff := deltas.filterMap (keepDelta diff_types glob_patterns)
  let submodule_results ← repo.submodulePaths.mapM (fun submodule_path =>
    get_submodule_diff repo submodule_path previous_commit current_commit
      diff_types diff glob_patterns)
  some (submodule_results.foldl
    (fun acc submodule_diff =>
      if submodule_diff.isEmpty then acc else acc ++ submodule_diff)
    file_diff)

/-- The eight-kind request list of main.rs:218-234
(`all_changed_and_modified_files`). -/
def allChangedAndModifiedKinds : List DiffType :=
  [.Added, .Copied, .Deleted, .Modified, .Renamed, .TypeChanged, .Unmerged, .Unknown]

/-- Every raw status classifies into the eight-kind request list. -/
theorem classifyDelta_mem_allKinds (d : Delta) :
    classifyDelta d ∈ allChangedAndModifiedKinds := by
  cases d <;> simp [classifyDelta, allChangedAndModifiedKinds]

/-! ## Object ids, hex strings, and lossy UTF-8 decoding

The push resolver manipulates SHA strings.  `Oid::from_str` (git2)
requires a hexadecimal string of at most 40 characters; every
`Oid::from_str(..).unwrap()` in the source panics on other input.
`commit.id().to_string()` renders the 20-byte oid as its 40-character
lowercase hex form, while utils.rs:217 instead feeds the raw oid bytes
through `String::from_utf8_lossy`.  The byte-level decoding is modelled
for single bytes: ASCII bytes decode to themselves and any other byte to
the replacement character (multi-byte UTF-8 sequences are not modelled;
no theorem depends on them).
-/

/-- Hex digit for a value below 16, lowercase as git renders oids. -/
def hexDigit (n : Nat) : Char :=
  if n < 10 then Char.ofNat (48 + n) else Char.ofNat (87 + n)

/-- Model of `commit.id().to_string()`: the 40-character lowercase hex
rendering of the 20 raw oid bytes. -/
def oidToHex (bytes : List Nat) : String :=
  String.mk (bytes.foldr (fun b acc => hexDigit (b / 16) :: hexDigit (b % 16) :: acc) [])

/-- Model of `String::from_utf8_lossy` on raw oid bytes, restricted to the
single-byte case: ASCII bytes map to their character, all others to the
replacement character. -/
def utf8Lossy (bytes : List Nat) : String :=
  String.mk (bytes.map (fun b => if b < 128 then Char.ofNat b else Char.ofNat 0xFFFD))

/-- Hexadecimal digit test on a character. -/
def isHexDigitChar (c : Char) : Bool :=
  (48 ≤ c.toNat && c.toNat ≤ 57) ||
    (97 ≤ c.toNat && c.toNat ≤ 102) ||
    (65 ≤ c.toNat && c.toNat ≤ 70)

/-- Model of the success condition of `git2::Oid::from_str`: a non-empty
hexadecimal string of at most 40 characters.  Every
`Oid::from_str(..).unwrap()` in the source panics exactly when this is
false. -/
def isValidOidStr (s : String) : Bool :=
  s.length != 0 && s.length ≤ 40 && s.toList.all isHexDigitChar

/-- The all-zero SHA the CI event reports when there is no before-state
(utils.rs:216). -/
def zeroSha : String := "0000000000000000000000000000000000000000"

/-! ## Push range resolver
(`get_previous_and_current_sha_for_push_event`, utils.rs:87-277)

External git commands (the fetches, the `--until` / `--since` log
queries, tag listing and `rev-parse`) and the repository lookups are
modelled by a port.  The fetch invocations only mutate the local history
the port already describes, so they do not appear explicitly.  The first
parent of a commit is exposed as its raw oid bytes because the source
renders it both as hex (utils.rs:210) and through lossy UTF-8 decoding of
the raw bytes (utils.rs:217).
-/

/-- Port for the externals of the push resolver. -/
structure PushEventPort where
  /-- Trimmed stdout of `git log -1 --format=%H --until=..` (utils.rs:143-152). -/
  untilSha : String
  /-- `repo.revparse_single("HEAD").id().to_string()` (utils.rs:155). -/
  headSha : String
  /-- Raw stdout of `git log --format=%H --since=..` (utils.rs:177-186, not trimmed). -/
  sinceLog : String
  /-- Lines of `git tag --sort=-v:refname` (utils.rs:188-196). -/
  tags : List String
  /-- Raw stdout of `git rev-parse <tag>` (utils.rs:201-207). -/
  revParseTag : String → String
  /-- Whether `repo.find_commit` succeeds on the oid parsed from this sha. -/
  findCommitExists : String → Bool
  /-- Raw oid bytes of the first parent of the commit with this sha
  (`commit.parent(0)`; `none` when the commit has no parent). -/
  parent0 : String → Option (List Nat)

/-- Terminal outcome of the push resolver together with the surrounding
process behavior: a returned `(previous, current, initial_commit)`
triple, a fatal `std::process::exit(1)`, or a Rust panic from a failed
`unwrap`/`expect`. -/
inductive PushResult where
  | ok (previous current : String) (initialCommit : Bool)
  | fatal
  | panicked
deriving DecidableEq, Repr

/-- Previous-sha resolution of the push resolver (utils.rs:171-252),
split out of the main body for readability: either an early terminal
outcome, or the chosen previous sha together with the initial-commit
flag. -/
def pushResolvePrevious (is_tag : Bool) (github_event_forced : Bool)
    (github_event_before : String) (since base_sha : String)
    (since_last_remote_commit : Bool) (current_sha : String)
    (port : PushEventPort) : Except PushResult (String × Bool) :=
  if base_sha = "" then
    if since ≠ "" then
      .ok (port.sinceLog, false)
    else if is_tag then
      match port.tags.get? 1 with
      | none => .error .panicked
      | some second_latest_tag => .ok (port.revParseTag second_latest_tag, false)
    else
      match port.parent0 current_sha with
      | none => .error .panicked
      | some parent_bytes =>
        let previous_sha := oidToHex parent_bytes
        let previous_sha :=
          if since_last_remote_commit ∧ ¬ github_event_forced then
            github_event_before
          else previous_sha
        let previous_sha :=
          if previous_sha = "" ∨ previous_sha = zeroSha then
            utf8Lossy parent_bytes
          else previous_sha
        if previous_sha = current_sha then
          if ¬ (isValidOidStr previous_sha = true) then .error .panicked
          else if ¬ (port.findCommitExists previous_sha = true) then .error .panicked
          else
            match port.parent0 previous_sha with
            | some parent_commit_bytes => .ok (oidToHex parent_commit_bytes, false)
            | none => .ok (current_sha, true)
        else
          if previous_sha = "" then .error .fatal
          else .ok (previous_sha, false)
  else
    .ok (base_sha, false)

/-- Embedding of `get_previous_and_current_sha_for_push_event`
(utils.rs:87-277).  The fetch steps (utils.rs:111-137) are external side
effects already reflected in the port.  Current-sha resolution follows
utils.rs:141-169, previous-sha resolution utils.rs:171-252, and the
final guards utils.rs:259-270. -/
def get_previous_and_current_sha_for_push_event (is_tag : Bool)
    (github_event_forced : Bool) (github_event_before : String)
    (until_arg since sha base_sha : String) (since_last_remote_commit : Bool)
    (port : PushEventPort) : PushResult :=
  let current_sha :=
    if until_arg ≠ "" then port.untilSha
    else if sha = "" then port.headSha
    else sha
  if ¬ (isValidOidStr current_sha = true) then .panicked
  else if ¬ (port.findCommitExists current_sha = true) then .fatal
  else
    match pushResolvePrevious is_tag github_event_forced github_event_before
        since base_sha since_last_remote_commit current_sha port with
    | .error r => r
    | .ok (previous_sha, initial_commit) =>
      if ¬ (isValidOidStr previous_sha = true) then .panicked
      else if ¬ (port.findCommitExists previous_sha = true) then .fatal
      else if previous_sha = current_sha ∧ ¬ initial_commit then .fatal
      else .ok previous_sha current_sha initial_commit

/-! ## Pull-request range resolver
(`get_previous_and_current_sha_for_pull_request_event`, utils.rs:279-525)

The deepening fetches of the merge-base remediation loop (utils.rs:432-455)
change the locally visible history, so the port's merge-base answer is
indexed by the number of deepening fetches performed so far; state `0` is
the history before the loop runs.  The first/second head fetch and the
submodule fetches (utils.rs:307-350) do not influence any value the
resolver returns beyond what the port already describes.
-/

/-- Port for the externals of the pull-request resolver. -/
structure PrEventPort where
  /-- Raw stdout of `git log -1 --format=%H --until=..` (utils.rs:356-365, not trimmed). -/
  untilSha : String
  /-- Raw stdout of `git rev-list -n 1 HEAD` (utils.rs:368-376, not trimmed). -/
  revListHead : String
  /-- Raw stdout of `git rev-parse origin/<target branch>` (utils.rs:410-416). -/
  revParseOriginTarget : String
  /-- Whether `repo.find_commit` succeeds on the oid parsed from this sha. -/
  findCommitExists : String → Bool
  /-- `repo.merge_base` after the given number of deepening fetches. -/
  mergeBaseAt : Nat → String → String → Option String
  /-- `repo.diff_tree_to_tree` on the trees of two commits, with
  `ignore_submodules(true)` (utils.rs:504-507). -/
  diffTreeToTree : String → String → List DeltaRec

/-- Terminal outcome of the pull-request resolver: the returned
`(previous, current, diff operator)` triple, a fatal
`std::process::exit(1)`, or a Rust panic. -/
inductive PrResult where
  | ok (previous current diff : String)
  | fatal
  | panicked
deriving DecidableEq, Repr

/-- One pass of the merge-base remediation loop (utils.rs:432-455):
`fuel` counts the remaining `for i in 1..10` iterations and `fetches` the
deepening fetches performed so far.  Each iteration fetches once more and
stops as soon as the merge-base resolves.  Returns the total number of
fetches performed. -/
def prLoopAux (port : PrEventPort) (previous_sha current_sha : String) :
    Nat → Nat → Nat
  | 0, fetches => fetches
  | fuel + 1, fetches =>
    let fetches := fetches + 1
    if (port.mergeBaseAt fetches previous_sha current_sha).isSome then fetches
    else prLoopAux port previous_sha current_sha fuel fetches

/-- Number of deepening fetches the remediation loop performs: the source
loop header is `for i in 1..10`, i.e. at most nine iterations, each
fetching once. -/
def prLoopFetches (port : PrEventPort) (previous_sha current_sha : String) : Nat :=
  prLoopAux port previous_sha current_sha 9 0

/-- The ancestor commit the final validation diffs against
(utils.rs:498-502), after the re-check of utils.rs:469-481 may have
forced the operator to `..`: the previous commit under `..`, the
merge-base under `...`. -/
def prAncestor (port : PrEventPort) (fetchState : Nat)
    (previous_sha current_sha diffIn : String) : String :=
  let diff :=
    if (port.mergeBaseAt fetchState previous_sha current_sha).isSome then diffIn
    else ".."
  if diff = "..." then
    (port.mergeBaseAt fetchState previous_sha current_sha).getD previous_sha
  else previous_sha

/-- Embedding of the tail of the pull-request resolver (utils.rs:469-525):
re-check merge-base reachability of the final pair and force the operator
to `..` when it is unreachable; verify the previous commit exists; diff
the chosen ancestor tree against the current tree; a zero-delta diff or
identical shas is a fatal exit. -/
def pr_finalize (port : PrEventPort) (fetchState : Nat)
    (previous_sha current_sha diffIn : String) : PrResult :=
  if ¬ (isValidOidStr previous_sha = true) then .panicked
  else
    let diff :=
      if (port.mergeBaseAt fetchState previous_sha current_sha).isSome then diffIn
      else ".."
    if ¬ (port.findCommitExists previous_sha = true) then .fatal
    else
      let ancestor_commit? : Option String :=
        match diff with
        | ".." => some previous_sha
        | "..." => port.mergeBaseAt fetchState previous_sha current_sha
        | _ => none
      match ancestor_commit? with
      | none => .panicked
      | some ancestor_commit =>
        if (port.diffTreeToTree ancestor_commit current_sha).length = 0 then .fatal
        else if previous_sha = current_sha then .fatal
        else .ok previous_sha current_sha diff

/-- Previous-sha resolution of the pull-request resolver
(utils.rs:395-467): either an early terminal outcome, or the chosen
previous sha together with the number of deepening fetches performed. -/
def prResolvePrevious (github_event_before github_event_pull_request_base_sha :
    String) (base_sha : String) (since_last_remote_commit is_shallow_clone : Bool)
    (current_sha : String) (port : PrEventPort) :
    Except PrResult (String × Nat) :=
  if base_sha = "" then
    let inner : Except PrResult (String × Nat) :=
      if since_last_remote_commit then
        let previous_sha := github_event_before
        if ¬ (isValidOidStr previous_sha = true) then .error .panicked
        else if port.findCommitExists previous_sha then .ok (previous_sha, 0)
        else .ok (github_event_pull_request_base_sha, 0)
      else
        let previous_sha := port.revParseOriginTarget
        if is_shallow_clone then
          if ¬ (isValidOidStr previous_sha = true) then .error .panicked
          else if (port.mergeBaseAt 0 previous_sha current_sha).isSome then
            .ok (previous_sha, 0)
          else
            .ok (previous_sha, prLoopFetches port previous_sha current_sha)
        else .ok (previous_sha, 0)
    match inner with
    | .error r => .error r
    | .ok (previous_sha, fetches) =>
      if previous_sha = "" ∨ previous_sha = current_sha then
        .ok (github_event_pull_request_base_sha, fetches)
      else .ok (previous_sha, fetches)
  else
    .ok (base_sha, 0)

/-- Embedding of `get_previous_and_current_sha_for_pull_request_event`
(utils.rs:279-525).  Current-sha resolution follows utils.rs:354-393, the
default operator choice utils.rs:396-400 (three-dot unless the PR base
ref is empty or the head repository is a fork), previous-sha resolution
utils.rs:402-467, and the final validation utils.rs:469-525. -/
def get_previous_and_current_sha_for_pull_request_event
    (github_event_before github_event_pull_request_base_ref
      github_event_head_repo_fork github_event_pull_request_base_sha : String)
    (is_shallow_clone : Bool) (until_arg sha base_sha : String)
    (since_last_remote_commit : Bool) (port : PrEventPort) : PrResult :=
  let current_sha :=
    if until_arg ≠ "" then port.untilSha
    else if sha = "" then port.revListHead
    else sha
  if ¬ (isValidOidStr current_sha = true) then .panicked
  else if ¬ (port.findCommitExists current_sha = true) then .fatal
  else
    let diff :=
      if github_event_pull_request_base_ref = "" ∨
          github_event_head_repo_fork = "true" then ".."
      else "..."
    match prResolvePrevious github_event_before
        github_event_pull_request_base_sha base_sha since_last_remote_commit
        is_shallow_clone current_sha port with
    | .error r => r
    | .ok (previous_sha, fetches) =>
      pr_finalize port fetches previous_sha current_sha diff

/-! ## The caller (`main`, main.rs:12-248)

`main` selects the push resolver when the PR base ref is empty and the
pull-request resolver otherwise, then invokes `get_diff` nine times —
once per requested classification set — always with the same
`previous_commit`, `current_commit` and `diff` variables.  Both resolvers
return their tuple as `(previous, current, ..)` (utils.rs:272-276,
520-524) while main.rs:84-88 and main.rs:111-115 destructure it as
`(current_commit, previous_commit, ..)`; the embedding reproduces that
destructuring order.  For push events the operator variable `diff` keeps
its initial value `".."` (main.rs:66).
-/

/-- The nine classification sets main requests, in call order
(main.rs:146-234). -/
def mainKindSets : List (List DiffType) :=
  [[.Added], [.Copied], [.Deleted], [.Modified], [.Renamed], [.TypeChanged],
    [.Unmerged], [.Unknown], allChangedAndModifiedKinds]

/-- Arguments of the nine `get_diff` invocations of a push-event run,
each as `(previous_commit, current_commit, kinds, diff)` in the parameter
order of `get_diff`.  Returns `none` when main exits before reaching
`get_diff` (initial-commit short-circuit with exit code 0, or a resolver
failure).  main.rs:84-88 binds `current_commit` to the first tuple
component and `previous_commit` to the second. -/
def mainPushGetDiffCalls (r : PushResult) :
    Option (List (String × String × List DiffType × String)) :=
  match r with
  | .ok first second initial_commit =>
    let current_commit := first
    let previous_commit := second
    if initial_commit then none
    else some (mainKindSets.map (fun kinds =>
      (previous_commit, current_commit, kinds, "..")))
  | _ => none

/-- Arguments of the nine `get_diff` invocations of a pull-request run,
analogous to `mainPushGetDiffCalls`; main.rs:111-115 binds
`current_commit` to the first tuple component, `previous_commit` to the
second, and `diff` to the third. -/
def mainPrGetDiffCalls (r : PrResult) :
    Option (List (String × String × List DiffType × String)) :=
  match r with
  | .ok first second diff =>
    let current_commit := first
    let previous_commit := second
    some (mainKindSets.map (fun kinds =>
      (previous_commit, current_commit, kinds, diff)))
  | _ => none

/-! ## Claim C1 — the triple handed to the diff engine -/

/-- Claim C1: the triple handed to DiffEngine is exactly the triple
produced by the selected resolver, in the same roles.  REFUTED by the
code: both resolvers return `(previous, current, ..)` (utils.rs:272-276,
520-524) while main.rs:84-88 and main.rs:111-115 destructure the tuple
as `(current_commit, previous_commit, ..)`, so every `get_diff`
invocation receives the resolver's previous commit as its current-commit
argument and vice versa.  Evaluated here at a resolver result with
previous `"aa"` and current `"bb"`: each of the nine `get_diff` calls of
both event kinds receives `("bb", "aa", ..)`, i.e. the roles exchanged,
while the operator is passed through unchanged. -/
theorem C1_role_swap_eval :
    mainPushGetDiffCalls (PushResult.ok "aa" "bb" false) =
      some (mainKindSets.map (fun kinds => ("bb", "aa", kinds, "..")))
    ∧ mainPrGetDiffCalls (PrResult.ok "aa" "bb" "...") =
      some (mainKindSets.map (fun kinds => ("bb", "aa", kinds, "...")))
    ∧ (("bb", "aa") : String × String) ≠ ("aa", "bb") := by
  refine ⟨rfl, rfl, ?_⟩
  decide

/-! ## Claim C3 — parentless current commit on a push event -/

/-- Port for the C3 evaluation: the current commit `"aaaa"` exists and
has no parent. -/
def c3Port : PushEventPort where
  untilSha := ""
  headSha := "aaaa"
  sinceLog := ""
  tags := []
  revParseTag := fun _ => ""
  findCommitExists := fun s => s == "aaaa"
  parent0 := fun _ => none

/-- Claim C3: in the ordinary push case (non-tag, no since/base-sha
override) a current commit with zero parents yields the initial-commit
short-circuit and exit code 0.  REFUTED by the code: utils.rs:210
evaluates `current_commit.parent(0).unwrap()` unconditionally before the
initial-commit check of utils.rs:220-230 can run, so a parentless
current commit panics (abnormal, non-zero termination) instead of
returning the `initial_commit` flag that makes main exit 0.  Evaluated
at a port whose current commit `"aaaa"` has no parent. -/
theorem C3_parentless_current_panics :
    get_previous_and_current_sha_for_push_event false false "" "" "" "aaaa" ""
        false c3Port = PushResult.panicked
    ∧ (∀ p c : String,
        PushResult.panicked ≠ PushResult.ok p c true) := by
  refine ⟨by decide, ?_⟩
  intro p c h
  cases h

/-! ## Claim C4 — the two raw-status mappings -/

/-- Claim C4 counterexample: the claim states that the top-level
per-request classification (the inline match of `get_diff`,
utils.rs:578-590) maps `Untracked` to `Added`; the code maps it to
`Unknown`. -/
theorem C4_counterexample :
    classifyDelta Delta.Untracked ≠ DiffType.Added
    ∧ classifyDelta Delta.Untracked = DiffType.Unknown := by
  decide

/-- Claim C4, amended: the per-request classification of `get_diff` and
`get_submodule_diff` maps Untracked, Ignored, Unreadable and Unmodified
to `Unknown`, while the prior-resolution mapping `From<Delta>`
(utils.rs:539-554) maps Untracked, Ignored and Unreadable to `Added`;
both mappings agree on Added, Copied, Deleted, Modified, Renamed and
TypeChanged, and both map Conflicted to Unmerged. -/
theorem C4_amended_mapping_table :
    (classifyDelta Delta.Untracked = DiffType.Unknown
      ∧ classifyDelta Delta.Ignored = DiffType.Unknown
      ∧ classifyDelta Delta.Unreadable = DiffType.Unknown
      ∧ classifyDelta Delta.Unmodified = DiffType.Unknown)
    ∧ (diffTypeFromDelta Delta.Untracked = some DiffType.Added
      ∧ diffTypeFromDelta Delta.Ignored = some DiffType.Added
      ∧ diffTypeFromDelta Delta.Unreadable = some DiffType.Added)
    ∧ (diffTypeFromDelta Delta.Added = some (classifyDelta Delta.Added)
      ∧ diffTypeFromDelta Delta.Copied = some (classifyDelta Delta.Copied)
      ∧ diffTypeFromDelta Delta.Deleted = some (classifyDelta Delta.Deleted)
      ∧ diffTypeFromDelta Delta.Modified = some (classifyDelta Delta.Modified)
      ∧ diffTypeFromDelta Delta.Renamed = some (classifyDelta Delta.Renamed)
      ∧ diffTypeFromDelta Delta.Typechange = some (classifyDelta Delta.Typechange))
    ∧ (classifyDelta Delta.Conflicted = DiffType.Unmerged
      ∧ diffTypeFromDelta Delta.Conflicted = some DiffType.Unmerged) := by
  decide

/-! ## Claim C10 — the before-sha fallback in the push resolver -/

/-- Port for the C10 evaluation: the current commit `"aaaa"` exists and
its first parent's raw oid bytes are twenty `0x7a` (`z`) bytes, a
perfectly ordinary oid whose bytes happen to be printable ASCII. -/
def c10Port : PushEventPort where
  untilSha := ""
  headSha := ""
  sinceLog := ""
  tags := []
  revParseTag := fun _ => ""
  findCommitExists := fun s => s == "aaaa"
  parent0 := fun s => if s == "aaaa" then some (List.replicate 20 122) else none

/-- Claim C10: with `since_last_remote_commit` set, the push not forced
and an empty CI before-sha, the previous commit falls back to the
current commit's first parent as a valid hexadecimal object id, so the
subsequent lookup succeeds.  REFUTED by the code: utils.rs:217 feeds the
raw 20 oid bytes through `String::from_utf8_lossy` instead of rendering
them as hex (contrast utils.rs:210, `id().to_string()`), so the fallback
string is not a hexadecimal object id and `Oid::from_str(..).unwrap()`
at utils.rs:259 panics even though the first parent exists locally.
Evaluated at a parent oid whose bytes are twenty `z` characters: the
fallback string is `"zzzzzzzzzzzzzzzzzzzz"`, not the hex rendering, it
is not a valid oid string, and the resolver panics. -/
theorem C10_lossy_fallback_panics :
    utf8Lossy (List.replicate 20 122) = "zzzzzzzzzzzzzzzzzzzz"
    ∧ oidToHex (List.replicate 20 122) =
        "7a7a7a7a7a7a7a7a7a7a7a7a7a7a7a7a7a7a7a7a"
    ∧ isValidOidStr (utf8Lossy (List.replicate 20 122)) = false
    ∧ get_previous_and_current_sha_for_push_event false false "" "" "" "aaaa" ""
        true c10Port = PushResult.panicked := by
  decide

/-! ## Claim C9 — push events always use the two-dot operator -/

/-- Claim C9: every `get_diff` invocation of a push-triggered run that
reaches the diff stage receives the two-dot operator string `".."`:
main.rs:66 initialises `diff` to `".."` and the push branch
(main.rs:83-109) never reassigns it, so the merge-base (three-dot)
operator is never used for push events. -/
theorem C9_push_always_twodot (r : PushResult)
    (calls : List (String × String × List DiffType × String))
    (h : mainPushGetDiffCalls r = some calls) :
    ∀ call ∈ calls, call.2.2.2 = ".." := by
  intro call hcall
  cases r with
  | ok first second initial_commit =>
    cases initial_commit with
    | true => simp [mainPushGetDiffCalls] at h
    | false =>
      simp only [mainPushGetDiffCalls, if_neg, Option.some.injEq,
        Bool.false_eq_true, not_false_eq_true, if_false] at h
      subst h
      obtain ⟨kinds, hk, rfl⟩ := List.mem_map.1 hcall
      rfl
  | fatal => simp [mainPushGetDiffCalls] at h
  | panicked => simp [mainPushGetDiffCalls] at h

/-- Witness for C9 at a concrete resolver result. -/
theorem C9_push_always_twodot_witness :
    mainPushGetDiffCalls (PushResult.ok "aa" "bb" false) =
      some (mainKindSets.map (fun kinds => ("bb", "aa", kinds, "..")))
    ∧ ∀ call ∈ mainKindSets.map
        (fun kinds => (("bb" : String), ("aa" : String), kinds, (".." : String))),
      call.2.2.2 = ".." :=
  ⟨rfl, C9_push_always_twodot (PushResult.ok "aa" "bb" false) _ rfl⟩

/-! ## Claim C5 — bounded merge-base remediation, then two-dot fallback -/

/-- The remediation loop performs at most `fetches + fuel` fetches. -/
theorem prLoopAux_le (port : PrEventPort) (p c : String) :
    ∀ (fuel fetches : Nat), prLoopAux port p c fuel fetches ≤ fetches + fuel := by
  intro fuel
  induction fuel with
  | zero => intro fetches; simp [prLoopAux]
  | succ n ih =>
    intro fetches
    simp only [prLoopAux]
    split
    · omega
    · calc prLoopAux port p c n (fetches + 1) ≤ (fetches + 1) + n := ih (fetches + 1)
        _ ≤ fetches + (n + 1) := by omega

/-- Claim C5: in the shallow, non-override pull-request case the
deepening fetch is repeated a bounded number of times — at most 10
attempts (the source loop `for i in 1..10`, utils.rs:432, in fact
performs at most nine) — and if the merge-base of the final
previous/current pair is still unresolvable, the operator handed on is
forced to `".."` (two-dot) rather than the default `"..."`; the forcing
itself is not fatal, the run can still conclude with an `ok` result
carrying `".."`. -/
theorem C5_bounded_deepen_then_twodot :
    (∀ (port : PrEventPort) (p c : String), prLoopFetches port p c ≤ 10)
    ∧ (∀ (port : PrEventPort) (s : Nat) (p c dop pr cu d : String),
        port.mergeBaseAt s p c = none →
        pr_finalize port s p c dop = PrResult.ok pr cu d → d = "..") := by
  constructor
  · intro port p c
    calc prLoopFetches port p c ≤ 0 + 9 := prLoopAux_le port p c 9 0
      _ ≤ 10 := by omega
  · intro port s p c dop pr cu d hmb h
    simp only [pr_finalize, hmb, Option.isSome_none, Bool.false_eq_true,
      if_false] at h
    split at h
    · cases h
    · split at h
      · cases h
      · split at h
        · cases h
        · split at h
          · cases h
          · cases h
            rfl

/-- Port for the C5 witness: the merge-base is never resolvable, the
tree diff is non-empty, every commit exists. -/
def c5Port : PrEventPort where
  untilSha := ""
  revListHead := ""
  revParseOriginTarget := ""
  findCommitExists := fun _ => true
  mergeBaseAt := fun _ _ _ => none
  diffTreeToTree := fun _ _ => [{ status := Delta.Modified, newFilePath := "f" }]

/-- Witness for C5: at `c5Port` the loop performs at most 10 fetches,
the merge-base of the final pair is unresolvable, and the finalisation
of a `"..."` request succeeds with the operator forced to `".."`. -/
theorem C5_bounded_deepen_then_twodot_witness :
    prLoopFetches c5Port "aa" "bb" ≤ 10
    ∧ c5Port.mergeBaseAt 9 "aa" "bb" = none
    ∧ pr_finalize c5Port 9 "aa" "bb" "..." = PrResult.ok "aa" "bb" ".."
    ∧ (".." : String) = ".." :=
  ⟨C5_bounded_deepen_then_twodot.1 c5Port "aa" "bb", rfl, by decide,
    C5_bounded_deepen_then_twodot.2 c5Port 9 "aa" "bb" "..." "aa" "bb" ".."
      rfl (by decide)⟩

/-! ## Claim C7 — zero-delta or identical shas is fatal for PR runs -/

/-- Claim C7: after the final previous/current pair of a pull-request
run is chosen, a zero-delta tree diff between the chosen ancestor (the
previous commit under two-dot, the merge-base under three-dot) and the
current commit, or a previous commit equal to the current one, is a
fatal error (utils.rs:509-518): the process exits with non-zero status
and no output list is produced. -/
theorem C7_zero_delta_or_equal_fatal (port : PrEventPort) (s : Nat)
    (previous current dop : String)
    (hop : dop = ".." ∨ dop = "...")
    (hv : isValidOidStr previous = true)
    (hf : port.findCommitExists previous = true)
    (h : previous = current ∨
      port.diffTreeToTree (prAncestor port s previous current dop) current = []) :
    pr_finalize port s previous current dop = PrResult.fatal := by
  by_cases hmb : (port.mergeBaseAt s previous current).isSome = true
  · obtain ⟨m, hm⟩ := Option.isSome_iff_exists.mp hmb
    rcases hop with rfl | rfl
    · simp only [prAncestor] at h
      rw [hm] at h
      simp at h
      rcases h with h | h
      · subst h
        simp [pr_finalize, hv, hf, hm]
      · simp [pr_finalize, hv, hf, hm, h]
    · simp only [prAncestor] at h
      rw [hm] at h
      simp at h
      rcases h with h | h
      · subst h
        simp [pr_finalize, hv, hf, hm]
      · simp [pr_finalize, hv, hf, hm, h]
  · have hmb2 : port.mergeBaseAt s previous current = none := by
      cases hq : port.mergeBaseAt s previous current with
      | none => rfl
      | some v => rw [hq] at hmb; simp at hmb
    simp only [prAncestor] at h
    rw [hmb2] at h
    simp at h
    rcases hop with rfl | rfl
    · rcases h with h | h
      · subst h
        simp [pr_finalize, hv, hf, hmb2]
      · simp [pr_finalize, hv, hf, hmb2, h]
    · rcases h with h | h
      · subst h
        simp [pr_finalize, hv, hf, hmb2]
      · simp [pr_finalize, hv, hf, hmb2, h]

/-- Port for the C7 witness: merge-base resolvable, every commit exists,
but the tree diff between any two commits is empty. -/
def c7Port : PrEventPort where
  untilSha := ""
  revListHead := ""
  revParseOriginTarget := ""
  findCommitExists := fun _ => true
  mergeBaseAt := fun _ _ _ => some "aa"
  diffTreeToTree := fun _ _ => []

/-- Witness for C7: at `c7Port` a three-dot pair `("aa", "bb")` whose
ancestor tree diff is empty finalises fatally. -/
theorem C7_zero_delta_or_equal_fatal_witness :
    isValidOidStr "aa" = true
    ∧ c7Port.diffTreeToTree (prAncestor c7Port 0 "aa" "bb" "...") "bb" = []
    ∧ pr_finalize c7Port 0 "aa" "bb" "..." = PrResult.fatal :=
  ⟨by decide, rfl,
    C7_zero_delta_or_equal_fatal c7Port 0 "aa" "bb" "..." (Or.inr rfl)
      (by decide) rfl (Or.inr rfl)⟩

/-! ## Claim C6 — submodule changes via gitlink-derived ranges -/

/-- The source appends a submodule result only when it is non-empty
(utils.rs:615-617); appending an empty list is the identity, so the
guard does not change the value. -/
theorem appendIfNonEmpty (top sub : List DiffFile) :
    (if sub.isEmpty then top else top ++ sub) = top ++ sub := by
  cases sub <;> simp

/-- Claim C6: for a repository whose single submodule's tracked commit
differs between the previous and current commits, `get_diff` with the
"all changed and modified" request appends the submodule-internal
changes: the submodule's own previous/current pair is exactly the pair
of gitlink ids recorded in the parent's trees at the previous and
current commits (utils.rs:634-635), the same diff operator decision as
the parent is applied to the submodule range (utils.rs:637-641, two-dot
diffs the gitlink pair directly, three-dot diffs from their merge-base),
and every submodule-internal delta whose path passes the glob filter
appears in the result. -/
theorem C6_submodule_gitlink_range (repo : Repository)
    (prev cur p a b mp ms : String) (globs : List String)
    (hsubs : repo.submodulePaths = [p])
    (hga : repo.gitlinkAt prev p = some a)
    (hgb : repo.gitlinkAt cur p = some b)
    (hfa : repo.findCommitExists a = true)
    (hfb : repo.findCommitExists b = true)
    (hab : a ≠ b)
    (hmp : repo.mergeBase prev cur = some mp)
    (hms : repo.mergeBase a b = some ms) :
    (get_diff repo prev cur allChangedAndModifiedKinds ".." globs =
      some (((repo.diffTreeToTree prev cur).filterMap
          (keepDelta allChangedAndModifiedKinds globs))
        ++ ((repo.diffTreeToTree a b).filterMap
          (keepDelta allChangedAndModifiedKinds globs))))
    ∧ (get_diff repo prev cur allChangedAndModifiedKinds "..." globs =
      some (((repo.diffTreeToTree mp cur).filterMap
          (keepDelta allChangedAndModifiedKinds globs))
        ++ ((repo.diffTreeToTree ms b).filterMap
          (keepDelta allChangedAndModifiedKinds globs))))
    ∧ (∀ d ∈ repo.diffTreeToTree a b,
        keepPathByGlobs globs d.newFilePath = true →
        DiffFile.mk d.newFilePath (classifyDelta d.status) ∈
          ((repo.diffTreeToTree prev cur).filterMap
            (keepDelta allChangedAndModifiedKinds globs)
          ++ (repo.diffTreeToTree a b).filterMap
            (keepDelta allChangedAndModifiedKinds globs))) := by
  refine ⟨?_, ?_, ?_⟩
  · simp [get_diff, get_submodule_diff, hsubs, hga, hgb, hfa, hfb,
      List.mapM.loop]
  · simp [get_diff, get_submodule_diff, hsubs, hga, hgb, hfa, hfb, hmp, hms,
      List.mapM.loop]
  · intro d hd hkeep
    refine List.mem_append_right _ ?_
    refine List.mem_filterMap.2 ⟨d, hd, ?_⟩
    simp [keepDelta, hkeep]
    exact classifyDelta_mem_allKinds d.status

/-- Repository for the C6 witness: one submodule at path `"sm"` whose
gitlink is `"a0"` in the previous commit `"p0"` and `"b0"` in the
current commit `"c0"`; the submodule range diff contains one modified
file, and both merge-bases resolve. -/
def c6Repo : Repository where
  mergeBase := fun x y =>
    if x == "p0" && y == "c0" then some "m0"
    else if x == "a0" && y == "b0" then some "n0"
    else none
  diffTreeToTree := fun x y =>
    if x == "a0" && y == "b0" then
      [{ status := Delta.Modified, newFilePath := "lib.rs" }]
    else if x == "n0" && y == "b0" then
      [{ status := Delta.Added, newFilePath := "sub.txt" }]
    else []
  submodulePaths := ["sm"]
  gitlinkAt := fun c q =>
    if q == "sm" then
      if c == "p0" then some "a0"
      else if c == "c0" then some "b0"
      else none
    else none
  findCommitExists := fun _ => true

/-- Witness for C6 at `c6Repo` with an empty glob filter. -/
theorem C6_submodule_gitlink_range_witness :
    c6Repo.submodulePaths = ["sm"]
    ∧ c6Repo.gitlinkAt "p0" "sm" = some "a0"
    ∧ c6Repo.gitlinkAt "c0" "sm" = some "b0"
    ∧ ("a0" : String) ≠ "b0"
    ∧ ((get_diff c6Repo "p0" "c0" allChangedAndModifiedKinds ".." [] =
        some (((c6Repo.diffTreeToTree "p0" "c0").filterMap
            (keepDelta allChangedAndModifiedKinds []))
          ++ ((c6Repo.diffTreeToTree "a0" "b0").filterMap
            (keepDelta allChangedAndModifiedKinds []))))
      ∧ (get_diff c6Repo "p0" "c0" allChangedAndModifiedKinds "..." [] =
        some (((c6Repo.diffTreeToTree "m0" "c0").filterMap
            (keepDelta allChangedAndModifiedKinds []))
          ++ ((c6Repo.diffTreeToTree "n0" "b0").filterMap
            (keepDelta allChangedAndModifiedKinds []))))
      ∧ (∀ d ∈ c6Repo.diffTreeToTree "a0" "b0",
          keepPathByGlobs [] d.newFilePath = true →
          DiffFile.mk d.newFilePath (classifyDelta d.status) ∈
            ((c6Repo.diffTreeToTree "p0" "c0").filterMap
              (keepDelta allChangedAndModifiedKinds [])
            ++ (c6Repo.diffTreeToTree "a0" "b0").filterMap
              (keepDelta allChangedAndModifiedKinds [])))) :=
  ⟨rfl, rfl, rfl, by decide,
    C6_submodule_gitlink_range c6Repo "p0" "c0" "sm" "a0" "b0" "m0" "n0" []
      rfl rfl rfl rfl rfl (by decide) rfl rfl⟩

/-! ## Claim C2 — the glob composition law -/

/-- Claim C2 counterexample: the claim states the compiled filter keeps
a path iff it matches the include side and matches no exclude pattern.
At include set `{"*.rs"}`, exclude set `{"src/*"}` and path
`"src/main.rs"` the code keeps the path — the exclude pattern `"src/*"`
does not match the include pattern literal `"*.rs"`, so the include
pattern survives filter construction, and excludes are never applied to
the diffed path itself — whereas the claimed law rejects it because the
path matches the exclude pattern. -/
theorem C2_counterexample :
    keepPathByGlobs (get_glob_patterns "*.rs" "\n" [] "src/*" "\n" [])
        "src/main.rs" = true
    ∧ specKeepPath ["*.rs"] ["src/*"] "src/main.rs" = false := by
  decide

/-- Claim C2, amended: exclusion acts only at the pattern level.  A path
is kept iff the exclude-filtered include list — the include patterns
whose literal text no exclude pattern matches case-insensitively — is
empty, or the path matches one of its surviving patterns
(case-sensitively); exclude patterns are never matched against the path
itself, so a path matching both an include and an exclude pattern is
kept whenever the include pattern's literal survives. -/
theorem C2_amended_pattern_level_exclusion
    (files fsep : String) (fcontents : List String)
    (fig figsep : String) (igcontents : List String) (path : String) :
    (keepPathByGlobs
        (get_glob_patterns files fsep fcontents fig figsep igcontents) path =
      (let filtered := (includePatternList files fsep fcontents).filter
          (fun g => !((ignorePatternList fig figsep igcontents).any
            (fun e => patternMatchesCaseInsensitive e g)))
       filtered.isEmpty ||
         filtered.any (fun g => patternMatches g path)))
    ∧ keepPathByGlobs (get_glob_patterns "*.rs" "\n" [] "src/*" "\n" [])
        "src/main.rs" = true := by
  exact ⟨rfl, by decide⟩

/-! ## Claim C8 — case sensitivity of the two matching call sites -/

/-- Case-sensitive matching success implies case-insensitive matching
success, at every fuel level: the matchers differ only in the character
comparison, and exact equality implies equality up to ASCII case. -/
theorem globMatchFuel_case_mono :
    ∀ (fuel : Nat) (pat s : List Char),
      globMatchFuel true fuel pat s = true →
      globMatchFuel false fuel pat s = true := by
  intro fuel
  induction fuel with
  | zero =>
    intro pat s h
    simp [globMatchFuel] at h
  | succ n ih =>
    intro pat s h
    cases pat with
    | nil =>
      cases s with
      | nil => simp [globMatchFuel]
      | cons c cs => simp [globMatchFuel] at h
    | cons p ps =>
      cases s with
      | nil =>
        by_cases hstar : p = '*'
        · subst hstar
          simp [globMatchFuel] at h ⊢
          exact ih ps [] h
        · simp [globMatchFuel, hstar] at h
      | cons c cs =>
        by_cases hstar : p = '*'
        · subst hstar
          simp [globMatchFuel] at h ⊢
          rcases h with h | h
          · exact Or.inl (ih _ _ h)
          · exact Or.inr (ih _ _ h)
        · by_cases hq : p = '?'
          · simp [globMatchFuel, hstar, hq] at h ⊢
            exact ih _ _ h
          · simp [globMatchFuel, hstar, hq] at h ⊢
            obtain ⟨h1, h2⟩ := h
            have hpc : p = c := by simpa [matchChars] using h1
            exact ⟨by simp [matchChars, hpc], ih _ _ h2⟩

/-- Monotonicity at the chosen fuel: a case-sensitive match is also a
case-insensitive match. -/
theorem globMatch_case_mono (pat s : List Char)
    (h : globMatch true pat s = true) : globMatch false pat s = true :=
  globMatchFuel_case_mono _ pat s h

/-- Claim C8 counterexample: the claim states that matching a diffed
path against a compiled pattern is case-insensitive.  The keep test of
`get_diff` uses `Pattern::matches`, i.e. the crate's default options
with `case_sensitive = true`: pattern `"*.RS"` accepts `"src/main.RS"`
but rejects `"src/main.rs"`, which differ only in ASCII case. -/
theorem C8_counterexample :
    keepPathByGlobs ["*.RS"] "src/main.RS" = true
    ∧ keepPathByGlobs ["*.RS"] "src/main.rs" = false := by
  decide

/-- Claim C8, amended: only pattern-vs-pattern matching during filter
construction is case-insensitive (utils.rs:755-761) — in particular it
accepts every exact match and case variants of it, and `"*.rs"` drops an
include written `"*.RS"` — while matching a diffed path in `get_diff`
(utils.rs:595) uses the crate's default options and is case-sensitive. -/
theorem C8_amended_construction_ci_path_cs :
    (∀ pat s : List Char,
      globMatch true pat s = true → globMatch false pat s = true)
    ∧ patternMatchesCaseInsensitive "*.rs" "*.RS" = true
    ∧ get_glob_patterns "*.RS" "\n" [] "*.rs" "\n" [] = []
    ∧ patternMatches "*.RS" "src/main.rs" = false
    ∧ patternMatches "*.rs" "src/main.rs" = true := by
  exact ⟨globMatch_case_mono, by decide, by decide, by decide, by decide⟩

/-- Witness for C8's amended statement: the universally quantified
implication applied at a concrete pattern and text. -/
theorem C8_amended_construction_ci_path_cs_witness :
    globMatch true "*.rs".toList "src/main.rs".toList = true
    ∧ globMatch false "*.rs".toList "src/main.rs".toList = true :=
  ⟨by decide,
    C8_amended_construction_ci_path_cs.1 "*.rs".toList "src/main.rs".toList
      (by decide)⟩
